import Mathlib

/-!
Verification of the "Oceano Etiquetas" backend (src/app.py) against its
natural-language specification.  The Python handlers are shallowly embedded
as pure Lean functions over an explicit database state; SQL NULL and the
empty string are both modelled as "" for text columns (the code only ever
distinguishes them through Python truthiness, under which they coincide),
nullable numeric columns are `Option Int`, timestamps are `Nat`.
-/

namespace Oceano

/-! ## Row formatter (`format_db_data`, app.py lines 59-79) -/

/--
Raw database cell values as seen by `format_db_data`.  `dt`, `date`, `time`
and `dec` stand for `datetime.datetime`, `datetime.date`, `datetime.time`
and `decimal.Decimal` objects, carried opaquely as a `Nat` identifier;
`flt` is a Python float (opaque); `lst` is a Python list; `other` is any
value of a type the formatter does not specially handle.
-/
inductive DbVal where
  | dt (x : Nat)
  | date (x : Nat)
  | time (x : Nat)
  | dec (x : Nat)
  | flt (x : Int)
  | str (s : String)
  | lst (l : List DbVal)
  | vnone
  | other (x : Nat)

/--
The conversions `format_db_data` delegates to the Python standard library:
`isoDT`/`isoDate` are `datetime.isoformat`, `hm` is `time.strftime` with
format `%H:%M`, and `decToFloat` is `float(Decimal)`, which the code guards
with a `try` that maps `TypeError`/`ValueError` to `None` (modelled as the
`Option.none` result).
-/
structure Convs where
  isoDT : Nat → String
  isoDate : Nat → String
  hm : Nat → String
  decToFloat : Nat → Option Int

/--
One branch of the `for key, value` loop body of `format_db_data`:
`datetime.datetime`/`datetime.date` values become `isoformat()` strings
(such objects are always truthy in Python 3, so the `if value` guard always
takes the left branch), `datetime.time` values become `strftime` strings,
`Decimal` values become floats or `None` on conversion failure, lists and
everything else pass through unchanged.
-/
def formatVal (c : Convs) : DbVal → DbVal
  | .dt x => .str (c.isoDT x)
  | .date x => .str (c.isoDate x)
  | .time x => .str (c.hm x)
  | .dec x =>
    match c.decToFloat x with
    | some f => .flt f
    | none => .vnone
  | .flt x => .flt x
  | .str s => .str s
  | .lst l => .lst l
  | .vnone => .vnone
  | .other x => .other x

/--
An arbitrary Python value handed to `format_db_data`: either a dict
(a mapping from column names to cell values) or a non-dict value.
-/
inductive PyData where
  | dict (entries : List (String × DbVal))
  | raw (v : DbVal)

/--
`format_db_data` (app.py lines 59-79): non-dict inputs are returned as-is,
dict inputs are rebuilt key by key with each value put through `formatVal`.
-/
def format_db_data (c : Convs) : PyData → PyData
  | .raw v => .raw v
  | .dict es => .dict (es.map (fun kv => (kv.1, formatVal c kv.2)))

/-! ## Specification-text parsing (`produto_detalhe`, app.py lines 220-229) -/

/-- Decoded JSON values, the possible results of `json.loads`. -/
inductive Json where
  | obj (fields : List (String × Json))
  | arr (elems : List Json)
  | str (s : String)
  | num (n : Int)
  | bool (b : Bool)
  | null

/--
The spec-parsing block of `produto_detalhe` (app.py lines 222-229),
abstracted over `json.loads`, modelled as `jp : String → Option Json`
(`none` when `json.loads` raises `JSONDecodeError`).  `specs_dict` starts
as `{}`; the parse is attempted only when the raw text is truthy (neither
`None` nor the empty string); on decode failure the raw text is wrapped as
a single-entry dict keyed "Descrição".
-/
def parse_specs (jp : String → Option Json) (txt : Option String) : Json :=
  match txt with
  | none => .obj []
  | some s =>
    if s = "" then .obj []
    else
      match jp s with
      | some v => v
      | none => .obj [("Descrição", .str s)]

/-! ## Data model (tables of the PostgreSQL schema used by app.py) -/

/-- A row of `oceano_produtos` (the columns the embedded handlers read). -/
structure Produto where
  id : Nat
  nome_produto : String
  codigo_produto : String
  categoria : String
  subcategoria : String
  imagem_principal_url : String
  descricao_curta : String
  url_slug : String
  especificacoes_tecnicas : Option String
  deriving DecidableEq, Repr

/-- A row of `oceano_clientes`. -/
structure Cliente where
  id : Nat
  nome_cliente : String
  email : String
  telefone : String
  codigo_acesso : String
  deriving DecidableEq, Repr

/-- A row of `oceano_admin`. -/
structure Admin where
  id : Nat
  username : String
  chave_admin : String
  deriving DecidableEq, Repr

/-- A row of `oceano_orcamentos` (a quote). -/
structure Orcamento where
  id : Nat
  cliente_id : Nat
  status : String
  valor_frete : Option Int
  valor_final_total : Option Int
  chave_pix : String
  observacoes_admin : String
  data_criacao : Nat
  data_atualizacao : Nat
  deriving DecidableEq, Repr

/-- A row of `oceano_orcamento_itens` (a quote line item). -/
structure OrcamentoItem where
  orcamento_id : Nat
  produto_id : Nat
  quantidade_solicitada : Nat
  observacoes_cliente : String
  preco_unitario_definido : Option Int
  deriving DecidableEq, Repr

/-- A row of `oceano_pedidos` (an order). -/
structure Pedido where
  id : Nat
  cliente_id : Nat
  status : String
  valor_frete : Option Int
  valor_final_total : Option Int
  chave_pix : String
  observacoes_admin : String
  codigo_rastreio : String
  data_criacao : Nat
  data_atualizacao : Nat
  deriving DecidableEq, Repr

/-- A row of `oceano_pedido_itens` (an order line item). -/
structure PedidoItem where
  pedido_id : Nat
  produto_id : Nat
  quantidade_solicitada : Nat
  observacoes_cliente : String
  preco_unitario_definido : Option Int
  deriving DecidableEq, Repr

/--
The database state: one list per table, plus the next value of each
SERIAL id sequence the embedded handlers draw fresh ids from.
-/
structure DB where
  produtos : List Produto
  clientes : List Cliente
  admins : List Admin
  orcamentos : List Orcamento
  orcamento_itens : List OrcamentoItem
  pedidos : List Pedido
  pedido_itens : List PedidoItem
  nextClienteId : Nat
  nextOrcamentoId : Nat
  nextPedidoId : Nat
  deriving DecidableEq, Repr

/-! ## Public product listing (`get_api_produtos`, app.py lines 185-203) -/

/-- Insert a product into a list kept sorted by `nome_produto`. -/
def insertByNome (p : Produto) : List Produto → List Produto
  | [] => [p]
  | q :: qs =>
    if p.nome_produto ≤ q.nome_produto then p :: q :: qs
    else q :: insertByNome p qs

/-- Sort product rows by `nome_produto`, the `ORDER BY` of the listing query. -/
def sortByNome : List Produto → List Produto
  | [] => []
  | p :: ps => insertByNome p (sortByNome ps)

/--
`get_api_produtos` (app.py lines 185-203): handler of `GET /api/produtos`.
It receives the request's `categoria` query parameter (`none` when absent)
but its body never reads it: the SQL query selects every product row with
no `WHERE` clause, ordered by `nome_produto`.
-/
def get_api_produtos (db : DB) (categoria : Option String) : List Produto :=
  sortByNome db.produtos

/-- Characterwise lowercasing, the model of Python `str.lower()`. -/
def lowerChars (s : String) : List Char :=
  s.toList.map Char.toLower

/-- Whether `pat` occurs as a prefix of `l` (over character lists). -/
def prefixOfChars : List Char → List Char → Bool
  | [], _ => true
  | _ :: _, [] => false
  | a :: as, b :: bs => a == b && prefixOfChars as bs

/-- Whether `pat` occurs as a contiguous substring of `l`. -/
def infixOfChars (pat : List Char) : List Char → Bool
  | [] => prefixOfChars pat []
  | b :: bs => prefixOfChars pat (b :: bs) || infixOfChars pat bs

/-- Case-insensitive substring test: does `s` contain `pat`? -/
def containsCI (s pat : String) : Bool :=
  infixOfChars (lowerChars pat) (lowerChars s)

/-! ## Product detail lookup (`produto_detalhe`, app.py lines 205-237) -/

/--
The row lookup of `produto_detalhe` (app.py lines 212-218): first query
`url_slug = "/produtos/" ++ slug`, and only if that returns no row, query
`url_slug = slug`; `fetchone` yields the first matching row.
-/
def find_produto_by_slug (produtos : List Produto) (slug : String) : Option Produto :=
  match produtos.find? (fun p => p.url_slug == "/produtos/" ++ slug) with
  | some p => some p
  | none => produtos.find? (fun p => p.url_slug == slug)

/-! ## Dynamic navigation menu (`inject_dynamic_menu`, app.py lines 134-183) -/

/-- One `{'nome': ..., 'url': ...}` entry of the navigation menu. -/
structure MenuLink where
  nome : String
  url : String
  deriving DecidableEq, Repr

/-- An ordered mapping subcategory → product links (`OrderedDict`). -/
abbrev Submenu := List (String × List MenuLink)

/-- An ordered mapping category → submenu (`OrderedDict`). -/
abbrev Menu := List (String × Submenu)

/-- The lexicographic `ORDER BY categoria, subcategoria, nome_produto`. -/
def menuLE (a b : Produto) : Bool :=
  decide (a.categoria < b.categoria) ||
    (a.categoria == b.categoria &&
      (decide (a.subcategoria < b.subcategoria) ||
        (a.subcategoria == b.subcategoria && decide (a.nome_produto ≤ b.nome_produto))))

/-- Insert a product into a list kept sorted by `menuLE`. -/
def insertMenuOrd (p : Produto) : List Produto → List Produto
  | [] => [p]
  | q :: qs => if menuLE p q then p :: q :: qs else q :: insertMenuOrd p qs

/-- Sort product rows in the menu query's `ORDER BY` order. -/
def sortMenuOrd : List Produto → List Produto
  | [] => []
  | p :: ps => insertMenuOrd p (sortMenuOrd ps)

/--
Appending a link under `subcat` inside an existing category entry:
`if subcat not in menu_data[cat]: menu_data[cat][subcat] = []` followed by
`menu_data[cat][subcat].append(produto_data)`.
-/
def submenuAdd (subs : Submenu) (subcat : String) (link : MenuLink) : Submenu :=
  if subs.any (fun e => e.1 == subcat) then
    subs.map (fun e => if e.1 == subcat then (e.1, e.2 ++ [link]) else e)
  else subs ++ [(subcat, [link])]

/--
The per-product update of the menu loop: `if cat in menu_data` the link is
nested under the category and subcategory, otherwise the menu is left
unchanged (there is no else branch in the source: the product is dropped).
-/
def menuAdd (menu : Menu) (cat subcat : String) (link : MenuLink) : Menu :=
  if menu.any (fun e => e.1 == cat) then
    menu.map (fun e => if e.1 == cat then (e.1, submenuAdd e.2 subcat link) else e)
  else menu

/--
The body of the `for produto in produtos` loop of `inject_dynamic_menu`
(app.py lines 155-172): a falsy subcategory becomes "Outros", a stored
`/produtos/` prefix is stripped from the slug and re-applied canonically,
and the link is nested under category and subcategory when the category is
one of the menu's keys.
-/
def menuStep (menu : Menu) (p : Produto) : Menu :=
  let subcat := if p.subcategoria = "" then "Outros" else p.subcategoria
  let slugLimpo :=
    if p.url_slug.startsWith "/produtos/" then p.url_slug.drop 10 else p.url_slug
  menuAdd menu p.categoria subcat ⟨p.nome_produto, "/produtos/" ++ slugLimpo⟩

/--
`inject_dynamic_menu` (app.py lines 134-183): seeds an ordered mapping with
the four fixed categories, queries products with non-empty category and
slug in `ORDER BY categoria, subcategoria, nome_produto` order, and folds
the loop body over them.
-/
def inject_dynamic_menu (db : DB) : Menu :=
  let categorias_ordem := ["Lacres", "Adesivos", "Brindes", "Impressos"]
  let menu_data : Menu := categorias_ordem.map (fun cat => (cat, []))
  let produtos :=
    sortMenuOrd (db.produtos.filter (fun p => p.categoria != "" && p.url_slug != ""))
  produtos.foldl menuStep menu_data

/-! ## JWT tokens and the auth decorators (app.py lines 92-127, 254-280, 672-706) -/

/-- The claim set carried by a JWT issued by this application. -/
structure Claims where
  admin_id : Option Nat
  username : Option String
  cliente_id : Option Nat
  nome_cliente : Option String
  exp : Nat
  deriving DecidableEq, Repr

/--
A presented bearer token: its decoded claims plus whether its signature
verifies against the application's `SECRET_KEY`.
-/
structure Token where
  claims : Claims
  sig_ok : Bool
  deriving DecidableEq, Repr

/--
`jwt.decode(token, SECRET_KEY, algorithms=["HS256"])`: yields the claim set
when the signature is valid and the `exp` claim has not passed, and raises
(modelled as `none`) otherwise.
-/
def jwt_decode (now : Nat) (t : Token) : Option Claims :=
  if t.sig_ok && decide (now < t.claims.exp) then some t.claims else none

/--
The token built by `admin_login` (app.py lines 268-272) for admin row `a`:
claims `admin_id`, `username` and a 24-hour expiry, signed with the app
secret.
-/
def admin_login_token (a : Admin) (issuedAt : Nat) : Token :=
  { claims :=
      { admin_id := some a.id,
        username := some a.username,
        cliente_id := none,
        nome_cliente := none,
        exp := issuedAt + 24 * 3600 },
    sig_ok := true }

/--
The token built by `cliente_login` (app.py lines 689-693) for client row
`c`: claims `cliente_id`, `nome_cliente` and a 72-hour expiry, signed with
the app secret.
-/
def cliente_login_token (c : Cliente) (issuedAt : Nat) : Token :=
  { claims :=
      { admin_id := none,
        username := none,
        cliente_id := some c.id,
        nome_cliente := some c.nome_cliente,
        exp := issuedAt + 72 * 3600 },
    sig_ok := true }

/-- The outcome of a route guard: reject with a status, or call the handler. -/
inductive GateResult (α : Type) where
  | denied (code : Nat)
  | allowed (a : α)
  deriving DecidableEq, Repr

/--
`admin_token_required` (app.py lines 92-109): 401 when no token is
presented, when `jwt.decode` raises (bad signature or expired), or when the
decoded claims lack `admin_id`; otherwise the wrapped handler runs.
-/
def admin_token_required (now : Nat) (auth : Option Token) : GateResult Unit :=
  match auth with
  | none => .denied 401
  | some t =>
    match jwt_decode now t with
    | none => .denied 401
    | some c =>
      match c.admin_id with
      | none => .denied 401
      | some _ => .allowed ()

/--
`cliente_token_required` (app.py lines 111-127): 401 when no token is
presented or `jwt.decode` raises; then `data['cliente_id']` is read, whose
`KeyError` on a token without that claim is caught by the same
`except Exception` and also answered with 401; otherwise the wrapped
handler receives the token's `cliente_id`.
-/
def cliente_token_required (now : Nat) (auth : Option Token) : GateResult Nat :=
  match auth with
  | none => .denied 401
  | some t =>
    match jwt_decode now t with
    | none => .denied 401
    | some c =>
      match c.cliente_id with
      | none => .denied 401
      | some cid => .allowed cid

/-! ## Admin-user deletion (`handle_admin_id`, app.py lines 478-495) -/

/-- An SQL write statement executed against the database. -/
inductive SqlEffect where
  | deleteAdmin (id : Nat)
  deriving DecidableEq, Repr

/-- Response of the admin-user DELETE endpoint. -/
inductive DelResp where
  | okMsg (id : Nat)
  | err (code : Nat)
  deriving DecidableEq, Repr

/--
`handle_admin_id` (app.py lines 478-495), `DELETE /api/oceano/admin/users/<id>`
behind `admin_token_required`: id 1 is rejected with 403 before any
connection or statement; any other id reaches the DELETE statement and is
committed.  The third component lists the SQL write statements executed.
-/
def handle_admin_id (now : Nat) (auth : Option Token) (db : DB) (id : Nat) :
    DelResp × DB × List SqlEffect :=
  match admin_token_required now auth with
  | .denied c => (.err c, db, [])
  | .allowed _ =>
    if id = 1 then (.err 403, db, [])
    else
      (.okMsg id,
       { db with admins := db.admins.filter (fun a => a.id ≠ id) },
       [.deleteAdmin id])

/-! ## Quote approval (`aprovar_orcamento`, app.py lines 570-605) -/

/--
Injected-failure oracle for a transaction: `failAt = some k` makes the
`k`-th executed statement raise, which the handler's `except` answers by
rolling the transaction back.
-/
def stepFails (failAt : Option Nat) (k : Nat) : Bool :=
  failAt == some k

/-- Whether the failure point lies among statements `lo, ..., lo + n - 1`. -/
def rangeFails (failAt : Option Nat) (lo n : Nat) : Bool :=
  match failAt with
  | some k => decide (lo ≤ k) && decide (k < lo + n)
  | none => false

/-- Response of `POST /api/oceano/admin/orcamentos/<id>/aprovar`. -/
inductive ApResp where
  | ok (pedidoId : Nat)
  | notFound
  | err (code : Nat)
  deriving DecidableEq, Repr

/--
`aprovar_orcamento` (app.py lines 570-605): inside `BEGIN`, reads the quote
(404 when absent; the connection is closed without commit, so nothing
persists), reads its line items, inserts one `oceano_pedidos` row seeded
from the quote's client, freight, total, pix key, admin notes and original
creation timestamp with status "Em Produção", inserts one
`oceano_pedido_itens` row per quote item carrying product, quantity,
customer note and admin-defined unit price, marks the quote
"Convertido em Pedido", and commits.  Statements are numbered 0 (`BEGIN`),
1 (`SELECT` quote), 2 (`SELECT` items), 3 (`INSERT` order), 4..4+n-1 (item
`INSERT`s), 4+n (`UPDATE` quote), 5+n (commit); a failure injected at any
of them rolls back to the incoming state.
-/
def aprovar_orcamento (db : DB) (id now : Nat) (failAt : Option Nat) : ApResp × DB :=
  if stepFails failAt 0 then (.err 500, db)
  else if stepFails failAt 1 then (.err 500, db)
  else
    match db.orcamentos.find? (fun o => o.id == id) with
    | none => (.notFound, db)
    | some orcamento =>
      if stepFails failAt 2 then (.err 500, db)
      else
        let itens_orcamento := db.orcamento_itens.filter (fun i => i.orcamento_id == id)
        if stepFails failAt 3 then (.err 500, db)
        else
          let novo_pedido_id := db.nextPedidoId
          if rangeFails failAt 4 itens_orcamento.length then (.err 500, db)
          else if stepFails failAt (4 + itens_orcamento.length) then (.err 500, db)
          else if stepFails failAt (5 + itens_orcamento.length) then (.err 500, db)
          else
            (.ok novo_pedido_id,
             { db with
               pedidos := db.pedidos ++
                 [{ id := novo_pedido_id,
                    cliente_id := orcamento.cliente_id,
                    status := "Em Produção",
                    valor_frete := orcamento.valor_frete,
                    valor_final_total := orcamento.valor_final_total,
                    chave_pix := orcamento.chave_pix,
                    observacoes_admin := orcamento.observacoes_admin,
                    codigo_rastreio := "",
                    data_criacao := orcamento.data_criacao,
                    data_atualizacao := now }],
               pedido_itens := db.pedido_itens ++
                 itens_orcamento.map (fun i =>
                   { pedido_id := novo_pedido_id,
                     produto_id := i.produto_id,
                     quantidade_solicitada := i.quantidade_solicitada,
                     observacoes_cliente := i.observacoes_cliente,
                     preco_unitario_definido := i.preco_unitario_definido }),
               orcamentos := db.orcamentos.map (fun o =>
                 if o.id == id then { o with status := "Convertido em Pedido" } else o),
               nextPedidoId := db.nextPedidoId + 1 })

/-! ## Public quote submission (`post_orcamento_publico`, app.py lines 817-932) -/

/-- Python `string.ascii_uppercase + string.digits`. -/
def access_code_chars : List Char :=
  "ABCDEFGHIJKLMNOPQRSTUVWXYZ0123456789".toList

/--
`generate_access_code` (app.py lines 82-86) at its default length 8:
eight independent draws of `random.choice` over the 36 uppercase letters
and digits, modelled by the oracle `pick` giving the index drawn at each
position.
-/
def generate_access_code (pick : Nat → Fin 36) : String :=
  String.mk ((List.range 8).map (fun i => access_code_chars.getD (pick i).val 'A'))

/-- One entry of the `itens` array of a quote-submission request body. -/
structure ItemReq where
  produto_id : Nat
  quantidade : Nat
  observacao : String
  deriving DecidableEq, Repr

/--
The JSON body of `POST /api/oceano/orcamento/publico`; absent fields
(`data.get(...) is None`) are modelled as `""`, which is Python-falsy
exactly like the empty string.
-/
structure PublicoReq where
  itens : List ItemReq
  nome : String
  email : String
  whatsapp : String
  codigo_acesso : String
  deriving DecidableEq, Repr

/-- Response of the public quote-submission endpoint. -/
inductive PubResp where
  | created (orcamentoId : Nat) (is_new : Bool)
  | err (code : Nat)
  deriving DecidableEq, Repr

/--
The shared quote-creation tail of `post_orcamento_publico` (app.py lines
886-917, identical to `post_novo_orcamento`): insert one
`oceano_orcamentos` row with status "Aguardando Orçamento" for the
resolved client, insert one `oceano_orcamento_itens` row per submitted
item (no admin price yet), commit, and report whether a client was newly
registered.
-/
def criaOrcamento (db : DB) (cliente_id : Nat) (is_new : Bool) (now : Nat)
    (itens : List ItemReq) : PubResp × DB :=
  let novo_orcamento_id := db.nextOrcamentoId
  (.created novo_orcamento_id is_new,
   { db with
     orcamentos := db.orcamentos ++
       [{ id := novo_orcamento_id,
          cliente_id := cliente_id,
          status := "Aguardando Orçamento",
          valor_frete := none,
          valor_final_total := none,
          chave_pix := "",
          observacoes_admin := "",
          data_criacao := now,
          data_atualizacao := now }],
     orcamento_itens := db.orcamento_itens ++
       itens.map (fun it =>
         { orcamento_id := novo_orcamento_id,
           produto_id := it.produto_id,
           quantidade_solicitada := it.quantidade,
           observacoes_cliente := it.observacao,
           preco_unitario_definido := none }),
     nextOrcamentoId := db.nextOrcamentoId + 1 })

/--
`post_orcamento_publico` (app.py lines 817-932): after validating that at
least one item was sent, that name/email/whatsapp are present when no
access code is, and that an email is present, the owning client is
resolved in order — by access code when one was submitted (failing with 401
and rolling back when it matches no row), else by email, else by inserting
a fresh client whose access code comes from `generate_access_code` — and
then exactly one quote with the submitted items is created for it.
-/
def post_orcamento_publico (db : DB) (req : PublicoReq) (pick : Nat → Fin 36)
    (now : Nat) : PubResp × DB :=
  if req.itens.isEmpty then (.err 400, db)
  else if req.codigo_acesso == "" &&
      (req.nome == "" || req.email == "" || req.whatsapp == "") then (.err 400, db)
  else if req.email == "" then (.err 400, db)
  else
    if req.codigo_acesso != "" then
      match db.clientes.find? (fun c => c.codigo_acesso == req.codigo_acesso) with
      | some cliente_existente => criaOrcamento db cliente_existente.id false now req.itens
      | none => (.err 401, db)
    else
      match db.clientes.find? (fun c => c.email == req.email) with
      | some cliente_existente => criaOrcamento db cliente_existente.id false now req.itens
      | none =>
        let novo_codigo_acesso := generate_access_code pick
        let novo_cliente : Cliente :=
          { id := db.nextClienteId,
            nome_cliente := req.nome,
            email := req.email,
            telefone := req.whatsapp,
            codigo_acesso := novo_codigo_acesso }
        let db1 : DB :=
          { db with
            clientes := db.clientes ++ [novo_cliente],
            nextClienteId := db.nextClienteId + 1 }
        criaOrcamento db1 novo_cliente.id true now req.itens

/-! ## Helper lemmas -/

theorem formatVal_idem (c : Convs) (v : DbVal) :
    formatVal c (formatVal c v) = formatVal c v := by
  cases v <;> try rfl
  case dec x => cases h : c.decToFloat x <;> simp [formatVal, h]

theorem mem_insertByNome (p q : Produto) (l : List Produto) :
    q ∈ insertByNome p l ↔ q = p ∨ q ∈ l := by
  induction l with
  | nil => simp [insertByNome]
  | cons a tl ih =>
    simp only [insertByNome]
    split
    · simp [List.mem_cons]
    · simp only [List.mem_cons, ih]
      tauto

theorem mem_sortByNome (q : Produto) (l : List Produto) :
    q ∈ sortByNome l ↔ q ∈ l := by
  induction l with
  | nil => simp [sortByNome]
  | cons a tl ih =>
    simp only [sortByNome, mem_insertByNome, ih, List.mem_cons]

theorem menuAdd_keys (m : Menu) (cat subcat : String) (link : MenuLink) :
    (menuAdd m cat subcat link).map Prod.fst = m.map Prod.fst := by
  unfold menuAdd
  split
  · rw [List.map_map]
    apply List.map_congr_left
    intro e _
    by_cases h : e.1 == cat <;> simp [h, Function.comp]
  · rfl

theorem foldl_menuStep_keys (l : List Produto) (m : Menu) :
    (l.foldl menuStep m).map Prod.fst = m.map Prod.fst := by
  induction l generalizing m with
  | nil => rfl
  | cons p tl ih =>
    rw [List.foldl_cons, ih, menuStep, menuAdd_keys]

/-! ## Example rows used by witnesses and counterexamples -/

/-- A database table state with every table empty. -/
def emptyDB : DB :=
  { produtos := [], clientes := [], admins := [], orcamentos := [],
    orcamento_itens := [], pedidos := [], pedido_itens := [],
    nextClienteId := 1, nextOrcamentoId := 1, nextPedidoId := 1 }

/-- A concrete product row in the seed category "Lacres". -/
def exProdLacre : Produto :=
  { id := 1, nome_produto := "Lacre Void", codigo_produto := "LV-01",
    categoria := "Lacres", subcategoria := "Void",
    imagem_principal_url := "", descricao_curta := "",
    url_slug := "lacre-void", especificacoes_tecnicas := none }

/-- A concrete product row in a category outside the seed list. -/
def exProdChaveiro : Produto :=
  { id := 2, nome_produto := "Chaveiro Metal", codigo_produto := "CM-01",
    categoria := "Chaveiros", subcategoria := "",
    imagem_principal_url := "", descricao_curta := "",
    url_slug := "chaveiro-metal", especificacoes_tecnicas := none }

/-- A concrete product row whose slug was stored with the path prefix. -/
def exProdSlugPrefixado : Produto :=
  { id := 3, nome_produto := "Etiqueta BOPP", codigo_produto := "EB-01",
    categoria := "Adesivos", subcategoria := "",
    imagem_principal_url := "", descricao_curta := "",
    url_slug := "/produtos/etiqueta-bopp", especificacoes_tecnicas := none }

theorem stepFails_none (k : Nat) : stepFails none k = false := rfl

theorem stepFails_some (j k : Nat) : stepFails (some j) k = (j == k) := rfl

theorem rangeFails_none (lo n : Nat) : rangeFails none lo n = false := rfl

theorem generate_access_code_spec (pick : Nat → Fin 36) :
    (generate_access_code pick).length = 8
    ∧ ∀ ch ∈ (generate_access_code pick).toList, ch ∈ access_code_chars := by
  constructor
  · show ((List.range 8).map _).length = 8
    rw [List.length_map, List.length_range]
  · intro ch hch
    have hch2 : ch ∈ (List.range 8).map
        (fun i => access_code_chars.getD (pick i).val 'A') := hch
    rw [List.mem_map] at hch2
    obtain ⟨i, _, hi⟩ := hch2
    have hlt : (pick i).val < access_code_chars.length := (pick i).isLt
    rw [← hi, List.getD_eq_get access_code_chars 'A' hlt]
    exact List.get_mem access_code_chars (pick i).val hlt

/-- A concrete admin row. -/
def exAdmin : Admin := { id := 2, username := "gerente", chave_admin := "chave" }

/-- A concrete client row. -/
def exCliente : Cliente :=
  { id := 7, nome_cliente := "Maria", email := "maria@exemplo.com",
    telefone := "11999999999", codigo_acesso := "A4B9K1D2" }

/-- A concrete quote row owned by client 7. -/
def exOrc : Orcamento :=
  { id := 1, cliente_id := 7, status := "Aguardando Pagamento",
    valor_frete := some 1500, valor_final_total := some 10500,
    chave_pix := "pix@oceano", observacoes_admin := "ok",
    data_criacao := 10, data_atualizacao := 20 }

/-- A concrete line item of quote 1. -/
def exItemOrc : OrcamentoItem :=
  { orcamento_id := 1, produto_id := 3, quantidade_solicitada := 100,
    observacoes_cliente := "logo frente", preco_unitario_definido := some 90 }

/-- A database holding quote 1 with one line item. -/
def exDbAp : DB :=
  { emptyDB with
    clientes := [exCliente], orcamentos := [exOrc],
    orcamento_itens := [exItemOrc] }

/-! ## Claim theorems -/

/--
C9: the row formatter `format_db_data` is total and idempotent: a non-dict
input is returned as-is, applying it twice to any input equals applying it
once, temporal values become ISO-8601 (resp. %H:%M) strings, fixed-point
decimal values become floats or null on conversion failure, and lists,
strings and values of unhandled types pass through unchanged.  Totality
(never raising) is inherent: `format_db_data` is a total Lean function
into `PyData`.
-/
theorem format_db_data_total_idempotent (c : Convs) (d : PyData) :
    format_db_data c (format_db_data c d) = format_db_data c d
    ∧ (∀ v : DbVal, format_db_data c (.raw v) = .raw v)
    ∧ (∀ x, formatVal c (.dt x) = .str (c.isoDT x))
    ∧ (∀ x, formatVal c (.date x) = .str (c.isoDate x))
    ∧ (∀ x, formatVal c (.time x) = .str (c.hm x))
    ∧ (∀ x, formatVal c (.dec x) =
        match c.decToFloat x with
        | some f => .flt f
        | none => .vnone)
    ∧ (∀ l, formatVal c (.lst l) = .lst l)
    ∧ (∀ s, formatVal c (.str s) = .str s)
    ∧ (∀ x, formatVal c (.other x) = .other x) := by
  refine ⟨?_, fun v => rfl, fun x => rfl, fun x => rfl, fun x => rfl, fun x => rfl,
    fun l => rfl, fun s => rfl, fun x => rfl⟩
  cases d with
  | raw v => rfl
  | dict es =>
    simp only [format_db_data, List.map_map]
    congr 1
    apply List.map_congr_left
    intro kv _
    simp [Function.comp, formatVal_idem]

/--
C4 counterexample: the empty specification text is not valid JSON
(`json.loads("")` raises, here the parse oracle returns `none` on it), yet
`produto_detalhe` leaves the parsed specs as the empty dict `{}` rather
than the claimed fallback map keyed "Descrição", because the fallback sits
behind the truthiness guard `if specs_json_string:`.
-/
theorem parse_specs_empty_cex :
    (fun _ : String => (none : Option Json)) "" = none
    ∧ parse_specs (fun _ => none) (some "") = .obj []
    ∧ parse_specs (fun _ => none) (some "") ≠ .obj [("Descrição", .str "")] := by
  refine ⟨rfl, rfl, ?_⟩
  intro h
  simp [parse_specs] at h

/--
C4 amended: for every product whose specification text is non-empty, the
parsed specs equal the JSON decoding when the text parses, and the
single-entry fallback map keyed "Descrição" holding the raw text when it
does not; an empty or absent specification text yields the empty dict; the
parse never raises to the caller (`parse_specs` is total).
-/
theorem parse_specs_amended (jp : String → Option Json) (s : String) (hs : s ≠ "") :
    (∀ v, jp s = some v → parse_specs jp (some s) = v)
    ∧ (jp s = none → parse_specs jp (some s) = .obj [("Descrição", .str s)])
    ∧ parse_specs jp (some "") = .obj []
    ∧ parse_specs jp none = .obj [] := by
  refine ⟨?_, ?_, by simp [parse_specs], rfl⟩
  · intro v hv
    simp [parse_specs, hs, hv]
  · intro hv
    simp [parse_specs, hs, hv]

/--
C4 witness: at the concrete non-JSON text "material pvc" the fallback map
is produced, and at the concrete JSON text "true" the decoded value is
produced.
-/
theorem parse_specs_amended_witness :
    parse_specs (fun t => if t = "true" then some (.bool true) else none)
        (some "material pvc") = .obj [("Descrição", .str "material pvc")]
    ∧ parse_specs (fun t => if t = "true" then some (.bool true) else none)
        (some "true") = .bool true :=
  ⟨(parse_specs_amended (fun t => if t = "true" then some (.bool true) else none)
      "material pvc" (by decide)).2.1 (by simp),
   (parse_specs_amended (fun t => if t = "true" then some (.bool true) else none)
      "true" (by decide)).1 (.bool true) (by simp)⟩

/--
C2 counterexample: with the store holding only the product "Lacre Void" of
category "Lacres" and the filter string "brinde" supplied as `categoria`,
the claim demands an empty result (no stored category contains "brinde"
case-insensitively), but `GET /api/produtos` still returns that product:
the handler never reads its `categoria` query parameter.
-/
theorem get_api_produtos_filter_cex :
    containsCI exProdLacre.categoria "brinde" = false
    ∧ exProdLacre ∈ get_api_produtos { emptyDB with produtos := [exProdLacre] }
        (some "brinde") := by
  decide

/--
C2 amended: the public listing endpoint ignores the `categoria` query
parameter entirely — its response with any filter equals its response with
no filter, and it always returns exactly the stored products (every stored
product appears and nothing else), ordered by product name.
-/
theorem get_api_produtos_ignores_categoria (db : DB) (c : Option String) :
    get_api_produtos db c = get_api_produtos db none
    ∧ (∀ p : Produto, p ∈ get_api_produtos db c ↔ p ∈ db.produtos) :=
  ⟨rfl, fun p => by simp [get_api_produtos, mem_sortByNome]⟩

/--
C3 counterexample: the product "Chaveiro Metal" has the non-empty category
"Chaveiros", which is not in the seed list, yet the navigation mapping
built from a store containing it still has exactly the four seed
categories as keys and every submenu empty — the category is not appended
and the product appears nowhere, because the loop guard
`if cat in menu_data` silently drops it.
-/
theorem inject_dynamic_menu_drops_cex :
    exProdChaveiro.categoria ≠ ""
    ∧ exProdChaveiro.categoria ∉ ["Lacres", "Adesivos", "Brindes", "Impressos"]
    ∧ exProdChaveiro ∈ ({ emptyDB with produtos := [exProdChaveiro] } : DB).produtos
    ∧ (inject_dynamic_menu { emptyDB with produtos := [exProdChaveiro] }).map Prod.fst
        = ["Lacres", "Adesivos", "Brindes", "Impressos"]
    ∧ ∀ e ∈ inject_dynamic_menu { emptyDB with produtos := [exProdChaveiro] },
        e.2 = [] := by
  decide

/--
C3 amended: the navigation builder returns an ordered mapping whose keys
are always exactly the fixed seed order Lacres, Adesivos, Brindes,
Impressos; a product row whose category is non-empty but outside that seed
list is silently dropped (its category is never appended), because the
per-product loop only updates categories already present in the seed.
-/
theorem inject_dynamic_menu_seed_keys (db : DB) :
    (inject_dynamic_menu db).map Prod.fst
      = ["Lacres", "Adesivos", "Brindes", "Impressos"] := by
  unfold inject_dynamic_menu
  rw [foldl_menuStep_keys]
  rfl

/--
C5: when row `r` is the only stored product whose `url_slug` is the bare
slug or its `/produtos/`-prefixed form, the detail lookup by the bare slug
resolves to `r`, whichever of the two forms is stored; and (for any store)
the lookup reports not-found exactly when no row carries either form —
it queries the prefixed form first, then the bare form.
-/
theorem find_produto_by_slug_resolves (produtos : List Produto) (slug : String)
    (r : Produto) (hmem : r ∈ produtos)
    (hslug : r.url_slug = slug ∨ r.url_slug = "/produtos/" ++ slug)
    (huniq : ∀ q ∈ produtos,
      (q.url_slug = slug ∨ q.url_slug = "/produtos/" ++ slug) → q = r) :
    find_produto_by_slug produtos slug = some r
    ∧ (∀ l : List Produto, find_produto_by_slug l slug = none ↔
        ∀ q ∈ l, q.url_slug ≠ slug ∧ q.url_slug ≠ "/produtos/" ++ slug) := by
  have hne : slug ≠ "/produtos/" ++ slug := by
    intro h
    have hlen := congrArg String.length h
    rw [String.length_append] at hlen
    have h10 : ("/produtos/" : String).length = 10 := rfl
    omega
  constructor
  · cases hslug with
    | inr hpre =>
      have hsome : (produtos.find? (fun p => p.url_slug == "/produtos/" ++ slug)).isSome := by
        rw [List.find?_isSome]
        exact ⟨r, hmem, by simp [hpre]⟩
      obtain ⟨q, hq⟩ := Option.isSome_iff_exists.mp hsome
      have hq_eq : q = r :=
        huniq q (List.mem_of_find?_eq_some hq) (Or.inr (by simpa using List.find?_some hq))
      simp [find_produto_by_slug, hq, hq_eq]
    | inl hbare =>
      have hnone : produtos.find? (fun p => p.url_slug == "/produtos/" ++ slug) = none := by
        rw [List.find?_eq_none]
        intro x hx hpx
        have hxe : x.url_slug = "/produtos/" ++ slug := by simpa using hpx
        have hxr : x = r := huniq x hx (Or.inr hxe)
        rw [hxr] at hxe
        exact hne (hbare ▸ hxe)
      have hsome2 : (produtos.find? (fun p => p.url_slug == slug)).isSome := by
        rw [List.find?_isSome]
        exact ⟨r, hmem, by simp [hbare]⟩
      obtain ⟨q, hq⟩ := Option.isSome_iff_exists.mp hsome2
      have hq_eq : q = r :=
        huniq q (List.mem_of_find?_eq_some hq) (Or.inl (by simpa using List.find?_some hq))
      simp [find_produto_by_slug, hnone, hq, hq_eq]
  · intro l
    constructor
    · intro hnr
      unfold find_produto_by_slug at hnr
      cases hf : l.find? (fun p => p.url_slug == "/produtos/" ++ slug) with
      | some p => rw [hf] at hnr; cases hnr
      | none =>
        rw [hf] at hnr
        rw [List.find?_eq_none] at hf hnr
        intro q hqmem
        exact ⟨fun he => hnr q hqmem (by simp [he]), fun he => hf q hqmem (by simp [he])⟩
    · intro hall
      have h1 : l.find? (fun p => p.url_slug == "/produtos/" ++ slug) = none := by
        rw [List.find?_eq_none]
        intro q hqmem hpq
        exact (hall q hqmem).2 (by simpa using hpq)
      have h2 : l.find? (fun p => p.url_slug == slug) = none := by
        rw [List.find?_eq_none]
        intro q hqmem hpq
        exact (hall q hqmem).1 (by simpa using hpq)
      simp [find_produto_by_slug, h1, h2]

/--
C5 witness: the concrete row stored with the prefixed slug
"/produtos/etiqueta-bopp" is resolved by a lookup on the bare slug
"etiqueta-bopp".
-/
theorem find_produto_by_slug_resolves_witness :
    find_produto_by_slug [exProdSlugPrefixado] "etiqueta-bopp"
      = some exProdSlugPrefixado :=
  (find_produto_by_slug_resolves [exProdSlugPrefixado] "etiqueta-bopp"
    exProdSlugPrefixado (by decide) (Or.inr (by decide)) (by decide)).1

/--
C7: the two token-verification middlewares reject tokens of the other
role: a validly signed, unexpired token issued by customer login (it
carries `cliente_id` but no `admin_id` claim) is answered 401 by the admin
gate without reaching the wrapped handler, a validly signed, unexpired
token issued by admin login (it carries `admin_id` but no `cliente_id`
claim) is answered 401 by the customer gate, and the customer gate passes
a valid customer token through, handing the wrapped handler the token's
`cliente_id`.  (`GateResult.denied` is returned before the wrapped handler
is ever applied.)
-/
theorem token_roles_enforced (a : Admin) (c : Cliente) (issuedC issuedA now : Nat)
    (hcfresh : now < issuedC + 72 * 3600)
    (hafresh : now < issuedA + 24 * 3600) :
    admin_token_required now (some (cliente_login_token c issuedC)) = .denied 401
    ∧ cliente_token_required now (some (cliente_login_token c issuedC)) = .allowed c.id
    ∧ cliente_token_required now (some (admin_login_token a issuedA)) = .denied 401
    ∧ admin_token_required now (some (admin_login_token a issuedA)) = .allowed () := by
  refine ⟨?_, ?_, ?_, ?_⟩ <;>
    simp [admin_token_required, cliente_token_required, jwt_decode,
      cliente_login_token, admin_login_token, hcfresh, hafresh]

/--
C7 witness: concrete tokens issued at time 0 and checked at time 1000 —
the customer token is rejected by the admin gate and accepted by the
customer gate, which receives client id 7.
-/
theorem token_roles_enforced_witness :
    admin_token_required 1000 (some (cliente_login_token exCliente 0)) = .denied 401
    ∧ cliente_token_required 1000 (some (cliente_login_token exCliente 0)) = .allowed 7
    ∧ cliente_token_required 1000 (some (admin_login_token exAdmin 0)) = .denied 401 :=
  ⟨(token_roles_enforced exAdmin exCliente 0 0 1000 (by decide) (by decide)).1,
   (token_roles_enforced exAdmin exCliente 0 0 1000 (by decide) (by decide)).2.1,
   (token_roles_enforced exAdmin exCliente 0 0 1000 (by decide) (by decide)).2.2.1⟩

/--
C8: behind a valid admin token, deleting admin user id 1 answers 403,
leaves the database untouched and executes no SQL statement, while
deleting any other id executes exactly the DELETE statement for that id.
-/
theorem handle_admin_id_protects_root (now : Nat) (auth : Option Token)
    (db : DB) (id : Nat)
    (hauth : admin_token_required now auth = .allowed ()) :
    handle_admin_id now auth db 1 = (.err 403, db, [])
    ∧ (id ≠ 1 →
        handle_admin_id now auth db id =
          (.okMsg id,
           { db with admins := db.admins.filter (fun a => a.id ≠ id) },
           [.deleteAdmin id])) := by
  constructor
  · simp [handle_admin_id, hauth]
  · intro hid
    simp [handle_admin_id, hauth, hid]

/--
C8 witness: with a concrete valid admin token, deleting id 1 is refused
with 403 and no statement, and deleting id 2 executes the DELETE.
-/
theorem handle_admin_id_protects_root_witness :
    handle_admin_id 1000 (some (admin_login_token exAdmin 0)) emptyDB 1
      = (.err 403, emptyDB, [])
    ∧ handle_admin_id 1000 (some (admin_login_token exAdmin 0)) emptyDB 2
      = (.okMsg 2, { emptyDB with admins := [] }, [.deleteAdmin 2]) :=
  ⟨(handle_admin_id_protects_root 1000 (some (admin_login_token exAdmin 0))
      emptyDB 2 (by decide)).1,
   (handle_admin_id_protects_root 1000 (some (admin_login_token exAdmin 0))
      emptyDB 2 (by decide)).2 (by decide)⟩

/--
C10: approving a quote id for which no quote row exists answers 404 and
returns the database exactly as it was — the transaction opened before the
existence check is never committed, so no order, no order line item and no
status change persists.
-/
theorem aprovar_orcamento_not_found (db : DB) (id now : Nat)
    (hmiss : db.orcamentos.find? (fun o => o.id == id) = none) :
    aprovar_orcamento db id now none = (.notFound, db) := by
  simp [aprovar_orcamento, stepFails, hmiss]

/--
C10 witness: approving quote id 1 on an empty database answers 404 with
the database unchanged.
-/
theorem aprovar_orcamento_not_found_witness :
    aprovar_orcamento emptyDB 1 0 none = (.notFound, emptyDB) :=
  aprovar_orcamento_not_found emptyDB 1 0 (by decide)

/--
C1: approving an existing quote performs, atomically, exactly these
effects and no others.  With no injected failure the final state differs
from the incoming one only by: one new order row owned by the quote's
client, seeded from its freight, total, pix key, admin notes and original
creation timestamp, with status "Em Produção"; one new order-line-item row
per quote line item carrying product, requested quantity, customer note
and admin-defined unit price; and the quote's status set to
"Convertido em Pedido".  A failure injected at any statement before the
commit completes (`BEGIN`, the two reads, the order insert, any item
insert, the quote update, or the commit itself) leaves the database
exactly as it was.
-/
theorem aprovar_orcamento_atomic (db : DB) (id now : Nat) (orc : Orcamento)
    (hfind : db.orcamentos.find? (fun o => o.id == id) = some orc) :
    aprovar_orcamento db id now none =
      (.ok db.nextPedidoId,
       { db with
         pedidos := db.pedidos ++
           [{ id := db.nextPedidoId,
              cliente_id := orc.cliente_id,
              status := "Em Produção",
              valor_frete := orc.valor_frete,
              valor_final_total := orc.valor_final_total,
              chave_pix := orc.chave_pix,
              observacoes_admin := orc.observacoes_admin,
              codigo_rastreio := "",
              data_criacao := orc.data_criacao,
              data_atualizacao := now }],
         pedido_itens := db.pedido_itens ++
           (db.orcamento_itens.filter (fun i => i.orcamento_id == id)).map (fun i =>
             { pedido_id := db.nextPedidoId,
               produto_id := i.produto_id,
               quantidade_solicitada := i.quantidade_solicitada,
               observacoes_cliente := i.observacoes_cliente,
               preco_unitario_definido := i.preco_unitario_definido }),
         orcamentos := db.orcamentos.map (fun o =>
           if o.id == id then { o with status := "Convertido em Pedido" } else o),
         nextPedidoId := db.nextPedidoId + 1 })
    ∧ ∀ k, k ≤ 5 + (db.orcamento_itens.filter (fun i => i.orcamento_id == id)).length →
        aprovar_orcamento db id now (some k) = (.err 500, db) := by
  constructor
  · simp [aprovar_orcamento, stepFails_none, rangeFails_none, hfind]
  · intro k hk
    by_cases h0 : k = 0
    · subst h0; simp [aprovar_orcamento, stepFails_some]
    by_cases h1 : k = 1
    · subst h1; simp [aprovar_orcamento, stepFails_some]
    by_cases h2 : k = 2
    · subst h2; simp [aprovar_orcamento, stepFails_some, hfind]
    by_cases h3 : k = 3
    · subst h3; simp [aprovar_orcamento, stepFails_some, hfind]
    by_cases hr : 4 ≤ k ∧ k < 4 + (db.orcamento_itens.filter (fun i => i.orcamento_id == id)).length
    · simp [aprovar_orcamento, stepFails_some, rangeFails, hfind, h0, h1, h2, h3,
        hr.1, hr.2]
    by_cases h4 : k = 4 + (db.orcamento_itens.filter (fun i => i.orcamento_id == id)).length
    · have hnr : ¬ (4 ≤ k ∧
          k < 4 + (db.orcamento_itens.filter (fun i => i.orcamento_id == id)).length) := hr
      subst h4
      have hlt : ¬ (4 + (db.orcamento_itens.filter (fun i => i.orcamento_id == id)).length
          < 4 + (db.orcamento_itens.filter (fun i => i.orcamento_id == id)).length) :=
        Nat.lt_irrefl _
      simp [aprovar_orcamento, stepFails_some, rangeFails, hfind, h0, h1, h2, h3, hlt]
    have h5 : k = 5 + (db.orcamento_itens.filter (fun i => i.orcamento_id == id)).length := by
      omega
    subst h5
    have hne4 : 5 + (db.orcamento_itens.filter (fun i => i.orcamento_id == id)).length
        ≠ 4 + (db.orcamento_itens.filter (fun i => i.orcamento_id == id)).length := by
      omega
    have hlt : ¬ (5 + (db.orcamento_itens.filter (fun i => i.orcamento_id == id)).length
        < 4 + (db.orcamento_itens.filter (fun i => i.orcamento_id == id)).length) := by
      omega
    simp [aprovar_orcamento, stepFails_some, rangeFails, hfind, h0, h1, h2, h3, hne4, hlt]

/--
C1 witness: on the concrete database holding quote 1 (client 7, one line
item) a normal run creates exactly order 1 with its one item and converts
the quote, while a failure injected at the item insert (statement 4,
before commit) leaves the database exactly as it was.
-/
theorem aprovar_orcamento_atomic_witness :
    aprovar_orcamento exDbAp 1 99 none =
      (.ok 1,
       { exDbAp with
         pedidos := [{ id := 1, cliente_id := 7, status := "Em Produção",
                       valor_frete := some 1500, valor_final_total := some 10500,
                       chave_pix := "pix@oceano", observacoes_admin := "ok",
                       codigo_rastreio := "", data_criacao := 10,
                       data_atualizacao := 99 }],
         pedido_itens := [{ pedido_id := 1, produto_id := 3,
                            quantidade_solicitada := 100,
                            observacoes_cliente := "logo frente",
                            preco_unitario_definido := some 90 }],
         orcamentos := [{ exOrc with status := "Convertido em Pedido" }],
         nextPedidoId := 2 })
    ∧ aprovar_orcamento exDbAp 1 99 (some 4) = (.err 500, exDbAp) :=
  ⟨(aprovar_orcamento_atomic exDbAp 1 99 exOrc (by decide)).1.trans (by decide),
   (aprovar_orcamento_atomic exDbAp 1 99 exOrc (by decide)).2 4 (by decide)⟩

/--
C6: on a validated public submission (at least one item, truthy email, and
truthy name and whatsapp), the owning client is resolved in this order: a
supplied access code matching client `c` uses `c` and creates no client; a
supplied access code matching no client fails with 401 and creates
nothing; otherwise an email match uses the existing client and creates no
client; otherwise exactly one new client is created whose access code is
the freshly generated `generate_access_code pick`, an 8-character string
over the uppercase letters and digits.  In every successful case exactly
one quote with the submitted line items is created for the resolved
client, and nothing else changes.
-/
theorem post_orcamento_publico_resolution (db : DB) (req : PublicoReq)
    (pick : Nat → Fin 36) (now : Nat)
    (hitens : req.itens ≠ []) (hemail : req.email ≠ "")
    (hnome : req.nome ≠ "") (hwhats : req.whatsapp ≠ "") :
    (∀ c, req.codigo_acesso ≠ "" →
      db.clientes.find? (fun x => x.codigo_acesso == req.codigo_acesso) = some c →
      post_orcamento_publico db req pick now =
        (.created db.nextOrcamentoId false,
         { db with
           orcamentos := db.orcamentos ++
             [{ id := db.nextOrcamentoId, cliente_id := c.id,
                status := "Aguardando Orçamento", valor_frete := none,
                valor_final_total := none, chave_pix := "",
                observacoes_admin := "", data_criacao := now,
                data_atualizacao := now }],
           orcamento_itens := db.orcamento_itens ++
             req.itens.map (fun it =>
               { orcamento_id := db.nextOrcamentoId, produto_id := it.produto_id,
                 quantidade_solicitada := it.quantidade,
                 observacoes_cliente := it.observacao,
                 preco_unitario_definido := none }),
           nextOrcamentoId := db.nextOrcamentoId + 1 }))
    ∧ (req.codigo_acesso ≠ "" →
        db.clientes.find? (fun x => x.codigo_acesso == req.codigo_acesso) = none →
        post_orcamento_publico db req pick now = (.err 401, db))
    ∧ (∀ c, req.codigo_acesso = "" →
        db.clientes.find? (fun x => x.email == req.email) = some c →
        post_orcamento_publico db req pick now =
          (.created db.nextOrcamentoId false,
           { db with
             orcamentos := db.orcamentos ++
               [{ id := db.nextOrcamentoId, cliente_id := c.id,
                  status := "Aguardando Orçamento", valor_frete := none,
                  valor_final_total := none, chave_pix := "",
                  observacoes_admin := "", data_criacao := now,
                  data_atualizacao := now }],
             orcamento_itens := db.orcamento_itens ++
               req.itens.map (fun it =>
                 { orcamento_id := db.nextOrcamentoId, produto_id := it.produto_id,
                   quantidade_solicitada := it.quantidade,
                   observacoes_cliente := it.observacao,
                   preco_unitario_definido := none }),
             nextOrcamentoId := db.nextOrcamentoId + 1 }))
    ∧ (req.codigo_acesso = "" →
        db.clientes.find? (fun x => x.email == req.email) = none →
        post_orcamento_publico db req pick now =
          (.created db.nextOrcamentoId true,
           { db with
             clientes := db.clientes ++
               [{ id := db.nextClienteId, nome_cliente := req.nome,
                  email := req.email, telefone := req.whatsapp,
                  codigo_acesso := generate_access_code pick }],
             nextClienteId := db.nextClienteId + 1,
             orcamentos := db.orcamentos ++
               [{ id := db.nextOrcamentoId, cliente_id := db.nextClienteId,
                  status := "Aguardando Orçamento", valor_frete := none,
                  valor_final_total := none, chave_pix := "",
                  observacoes_admin := "", data_criacao := now,
                  data_atualizacao := now }],
             orcamento_itens := db.orcamento_itens ++
               req.itens.map (fun it =>
                 { orcamento_id := db.nextOrcamentoId, produto_id := it.produto_id,
                   quantidade_solicitada := it.quantidade,
                   observacoes_cliente := it.observacao,
                   preco_unitario_definido := none }),
             nextOrcamentoId := db.nextOrcamentoId + 1 }))
    ∧ (generate_access_code pick).length = 8
    ∧ (∀ ch ∈ (generate_access_code pick).toList, ch ∈ access_code_chars) := by
  have hie : req.itens.isEmpty = false := by
    rw [List.isEmpty_eq_false]
    exact hitens
  refine ⟨?_, ?_, ?_, ?_, (generate_access_code_spec pick).1,
    (generate_access_code_spec pick).2⟩
  · intro c hcod hfind
    simp [post_orcamento_publico, criaOrcamento, hie, hcod, hemail, hnome,
      hwhats, hfind]
  · intro hcod hfind
    simp [post_orcamento_publico, hie, hcod, hemail, hnome, hwhats, hfind]
  · intro c hcod hfind
    simp [post_orcamento_publico, criaOrcamento, hie, hcod, hemail, hnome,
      hwhats, hfind]
  · intro hcod hfind
    simp [post_orcamento_publico, criaOrcamento, hie, hcod, hemail, hnome,
      hwhats, hfind]

/-- A concrete submitted line item. -/
def exItemReq : ItemReq :=
  { produto_id := 3, quantidade := 50, observacao := "frente" }

/-- A concrete submission carrying an access code that matches no client. -/
def exReqCodigoErrado : PublicoReq :=
  { itens := [exItemReq], nome := "João", email := "joao@exemplo.com",
    whatsapp := "11988887777", codigo_acesso := "ZZZZZZZZ" }

/-- A concrete submission with no access code and an unknown email. -/
def exReqNovo : PublicoReq :=
  { itens := [exItemReq], nome := "João", email := "joao@exemplo.com",
    whatsapp := "11988887777", codigo_acesso := "" }

/--
C6 witness: against an empty client table, a submission with a wrong
access code fails with 401 creating nothing, and a submission with no
access code and a new email creates exactly one client (access code
"AAAAAAAA" under the constant draw oracle) and exactly one quote with the
submitted item.
-/
theorem post_orcamento_publico_resolution_witness :
    post_orcamento_publico emptyDB exReqCodigoErrado (fun _ => (0 : Fin 36)) 5
      = (.err 401, emptyDB)
    ∧ post_orcamento_publico emptyDB exReqNovo (fun _ => (0 : Fin 36)) 5
      = (.created 1 true,
         { emptyDB with
           clientes := [{ id := 1, nome_cliente := "João",
                          email := "joao@exemplo.com",
                          telefone := "11988887777",
                          codigo_acesso := "AAAAAAAA" }],
           nextClienteId := 2,
           orcamentos := [{ id := 1, cliente_id := 1,
                            status := "Aguardando Orçamento",
                            valor_frete := none, valor_final_total := none,
                            chave_pix := "", observacoes_admin := "",
                            data_criacao := 5, data_atualizacao := 5 }],
           orcamento_itens := [{ orcamento_id := 1, produto_id := 3,
                                 quantidade_solicitada := 50,
                                 observacoes_cliente := "frente",
                                 preco_unitario_definido := none }],
           nextOrcamentoId := 2 }) :=
  ⟨(post_orcamento_publico_resolution emptyDB exReqCodigoErrado (fun _ => 0) 5
      (by decide) (by decide) (by decide) (by decide)).2.1 (by decide) rfl,
   ((post_orcamento_publico_resolution emptyDB exReqNovo (fun _ => 0) 5
      (by decide) (by decide) (by decide) (by decide)).2.2.2.1 rfl rfl).trans
     (by decide)⟩

end Oceano
